import Mathlib

/-!
Verification of the asynchronous TikZ generation-and-rendering pipeline of
`tikz_gui.py` (class `TikZGUI`). The Python code is shallowly embedded:

* Python strings become `Str := List Char`, and the string primitives used by
  the program (`str.find`, slicing, `str.strip`, `in`, `str.replace`) are
  reimplemented with Python's exact semantics, including `find` returning `-1`
  and negative slice indices counting from the end.
* The GUI object's mutable fields that the pipeline touches become the record
  `St`; external effects (network call, `pdflatex` subprocess, pdf-to-image
  conversion) are oracles (`NetEnv`, `RenderEnv`) describing their outcome.
* Every embedded method additionally returns a `Trace` of observable actions
  tagged with the thread that performed them (`Thread.interactive` for the Tk
  main loop, `Thread.worker i` for a thread spawned via `threading.Thread` or
  `asyncio.to_thread`), so that ordering and thread-confinement properties can
  be stated.  Code that only touches widget internals not modelled here
  (geometry, fonts, the entry widget's text) is noted in comments.
-/

/-- Characters of a Python string. -/
abbrev Str := List Char

/-- Bounded scan implementing CPython's substring search: starting at index
`i`, return the least index `≥ i` at which `needle` occurs in `hay`, else
`-1`. `fuel` bounds the number of candidate positions inspected. -/
def findFromAux (hay needle : Str) : Nat → Nat → Int
  | 0, _ => -1
  | fuel + 1, i =>
    if i ≤ hay.length then
      if needle.isPrefixOf (hay.drop i) then (i : Int)
      else findFromAux hay needle fuel (i + 1)
    else -1

/-- Python `hay.find(needle, start)` for a nonnegative `start`: the least
index `≥ start` where `needle` occurs, or `-1`.  When `start > len(hay)` the
result is `-1` (CPython: `start + len(needle) > len(hay)` fails). -/
def findFrom (hay needle : Str) (start : Nat) : Int :=
  findFromAux hay needle (hay.length + 1 - start) start

/-- CPython's index adjustment for the `start` argument of `str.find`:
a negative start counts from the end, clamped at 0. -/
def pyStart (n : Nat) (i : Int) : Nat :=
  if i < 0 then ((n : Int) + i).toNat else i.toNat

/-- Python `hay.find(needle, start)` with an arbitrary integer `start`. -/
def findFromI (hay needle : Str) (start : Int) : Int :=
  findFrom hay needle (pyStart hay.length start)

/-- Python `needle in hay` (substring containment): `find` did not return -1. -/
def pyIn (hay needle : Str) : Bool :=
  findFrom hay needle 0 != -1

/-- CPython's slice-index adjustment: negative indices count from the end
(clamped at 0), positive ones are clamped at the length. -/
def pyIdx (n : Nat) (i : Int) : Nat :=
  if i < 0 then ((n : Int) + i).toNat else min i.toNat n

/-- Python `hay[a:b]` for arbitrary integer bounds. -/
def pySliceI (hay : Str) (a b : Int) : Str :=
  (hay.take (pyIdx hay.length b)).drop (pyIdx hay.length a)

/-- Python `s.strip()`: remove leading and trailing whitespace. -/
def pyStrip (s : Str) : Str :=
  ((s.dropWhile Char.isWhitespace).reverse.dropWhile Char.isWhitespace).reverse

/-- Worker for `pyReplace`; `fuel` bounds the number of replacements, which
is sufficient because each step consumes at least one character of `hay`
(the single use site has a nonempty needle occurring once). -/
def pyReplaceAux (needle repl : Str) : Nat → Str → Str
  | 0, hay => hay
  | fuel + 1, hay =>
    let k := findFrom hay needle 0
    if k < 0 then hay
    else hay.take k.toNat ++ repl ++ pyReplaceAux needle repl fuel (hay.drop (k.toNat + needle.length))

/-- Python `hay.replace(needle, repl)` for a nonempty needle: replace all
non-overlapping occurrences, left to right. -/
def pyReplace (hay needle repl : Str) : Str :=
  pyReplaceAux needle repl (hay.length + 1) hay

/-! ### String constants of `tikz_gui.py` (braces written as \x7b/\x7d) -/

/-- The begin-environment token `\begin{tikzpicture}` (19 characters). -/
def BEGIN_TOK : Str := ("\\begin\x7btikzpicture\x7d").data

/-- The end-environment token `\end{tikzpicture}` (17 characters). -/
def END_TOK : Str := ("\\end\x7btikzpicture\x7d").data

/-- The opening fence marker searched for in `process_response` (7 characters). -/
def FENCE_TIKZ : Str := ("```tikz").data

/-- A bare triple-backtick fence. -/
def FENCE : Str := ("```").data

/-- Canned message substituted when the captured compiler output contains
"Undefined color" (`render_tikz`, line 668). -/
def UNDEFINED_COLOR_MSG : Str :=
  ("Error: Invalid color name used in diagram. Please use standard color names or RGB values.").data

/-- Canned message substituted when the captured compiler output contains
"Illegal parameter" (`render_tikz`, line 670). -/
def ILLEGAL_PARAMETER_MSG : Str :=
  ("Error: Invalid TikZ parameters. Please check your node and path specifications.").data

/-- Substring signature for the undefined-colour failure. -/
def UNDEF_TOK : Str := ("Undefined color").data

/-- Substring signature for the illegal-parameter failure. -/
def ILLEGAL_TOK : Str := ("Illegal parameter").data

/-- Prefix of the chat message posted by `render_tikz`'s `except` branch. -/
def RENDER_ERR_PREFIX : Str := ("Error rendering diagram: ").data

/-- `str(IndexError)` raised by `pages[0]` when the conversion yields no pages. -/
def INDEX_ERR_MSG : Str := ("list index out of range").data

/-- Chat message of `process_response`'s `except` branch. -/
def PROCESS_ERR_MSG : Str := ("Error processing response").data

/-- Prefix of the chat message of `generate_diagram`'s `except` branch. -/
def GENERATE_ERR_PREFIX : Str := ("Error generating diagram: ").data

/-- Prefix of the chat message of `update_ui_with_result`'s error branch. -/
def UPDATE_ERR_PREFIX : Str := ("Error: ").data

/-- Prefix of the chat message of `update_ui_with_result`'s `except` branch. -/
def UPDATE_EXC_PREFIX : Str := ("Error updating UI: ").data

/-- Placeholder text of the input entry. -/
def PLACEHOLDER : Str := ("Describe the diagram you want to create...").data

/-- Welcome message added to the chat during `create_gui_elements`. -/
def WELCOME : Str := ("Welcome! Describe the diagram you want to create.").data

/-- The LaTeX document template of `render_tikz` (lines 632-647), verbatim. -/
def latexTemplate : Str :=
  ("\\documentclass[tikz,border=10pt]\x7bstandalone\x7d\n\\usepackage\x7btikz\x7d\n\\usepackage[dvipsnames,svgnames,x11names]\x7bxcolor\x7d\n\\usetikzlibrary\x7bautomata,arrows,backgrounds,fit,positioning,shapes\x7d\n\n% Define custom colors\n\\definecolor\x7blightblue\x7d\x7bRGB\x7d\x7b173,216,230\x7d\n\\definecolor\x7blightred\x7d\x7bRGB\x7d\x7b255,182,193\x7d\n\\definecolor\x7blightgreen\x7d\x7bRGB\x7d\x7b144,238,144\x7d\n\\definecolor\x7blightyellow\x7d\x7bRGB\x7d\x7b255,255,224\x7d\n\\definecolor\x7blightgray\x7d\x7bRGB\x7d\x7b211,211,211\x7d\n\n\\begin\x7bdocument\x7d\n\x7bcontent\x7d\n\\end\x7bdocument\x7d\n").data

/-- The substitution marker `{content}` of the template. -/
def CONTENT_MARK : Str := ("\x7bcontent\x7d").data

/-! ### Pure text transforms of the source -/

/-- The tikzpicture-environment extraction at the top of `render_tikz`
(lines 624-629):
`tikz_content = tikz_code`; if the begin token occurs,
`start = tikz_code.find(begin)`, `stop = tikz_code.find(end) + len(end)`,
`tikz_content = tikz_code[start:stop]`.  (`end` is a reserved word in Lean,
hence `stop`.) -/
def extractTikzContent (tikz_code : Str) : Str :=
  if pyIn tikz_code BEGIN_TOK then
    let start := findFrom tikz_code BEGIN_TOK 0
    let stop := findFrom tikz_code END_TOK 0 + (END_TOK.length : Int)
    pySliceI tikz_code start stop
  else tikz_code

/-- The fenced-block extraction of `process_response` (lines 792-796):
if "```tikz" occurs, `start = content.find("```tikz") + 6`,
`end = content.find("```", start)`, result `content[start:end].strip()`;
otherwise `tikz_code` stays `None`. -/
def fencedExtract (content : Str) : Option Str :=
  if pyIn content FENCE_TIKZ then
    let start := findFrom content FENCE_TIKZ 0 + 6
    let stop := findFromI content FENCE start
    some (pyStrip (pySliceI content start stop))
  else none

/-- The prose assembly of `process_response` (lines 800-806), evaluated when a
fenced block was found: text before the opening fence and after the closing
fence, joined by a blank line, stripped. -/
def fencedProse (content : Str) : Str :=
  let start := findFrom content FENCE_TIKZ 0 + 6
  let pre_code := pyStrip (pySliceI content 0 (findFrom content FENCE_TIKZ 0))
  let post_code := pyStrip (pySliceI content (findFromI content FENCE start + 3) (content.length : Int))
  pyStrip (pre_code ++ ("\n\n").data ++ post_code)

/-- The error-message classification of `render_tikz` (lines 666-670): an
ordered substring match over the captured `pdflatex` stdout, replacing it by a
canned message for the two recognised signatures and keeping the raw text
otherwise. -/
def classifyError (stdout : Str) : Str :=
  if pyIn stdout UNDEF_TOK then UNDEFINED_COLOR_MSG
  else if pyIn stdout ILLEGAL_TOK then ILLEGAL_PARAMETER_MSG
  else stdout

/-! ### Threads, observable actions, state -/

/-- The thread performing an action: the Tk main loop, or a spawned worker. -/
inductive Thread where
  | interactive
  | worker (id : Nat)
  deriving DecidableEq, Repr

/-- Observable actions of the pipeline.  `enqueueResult` (a `put` on
`result_queue`) and `dispatchResult` (the dispatcher's `get_nowait`
obtaining an item and handing it to `update_ui_with_result`) are included so
that claims about the Job Queue can be stated; `writeTex` records the document
written to the working directory. -/
inductive Act where
  | networkCall
  | subprocessCall
  | enqueueResult
  | dispatchResult
  | scheduleCheck
  | spawnRender (code : Str)
  | mkdTemp (dir : Nat)
  | writeTex (doc : Str)
  | rmTree (dir : Nat)
  | chatAdd (msg : Str)
  | canvasClear
  | canvasImage (img : Nat)
  | codeSet (code : Str)
  | loadingStart
  | loadingStop
  deriving DecidableEq, Repr

/-- A trace of thread-tagged actions. -/
abbrev Trace := List (Thread × Act)

/-- An entry of `result_queue`.  The source never constructs one; the shapes
correspond to the dictionary accesses of `update_ui_with_result`: an "error"
key, a "tikz_code" key, or neither (in which case `result["tikz_code"]`
raises, caught by that method's `except`). -/
inductive QItem where
  | errorItem (msg : Str)
  | successItem (code : Str)
  | malformedItem (emsg : Str)
  deriving DecidableEq, Repr

/-- The mutable fields of `TikZGUI` touched by the pipeline.  `tempDirs` is
the set (as a list of fresh ids) of per-render working directories currently
existing on disk; `pendingChecks` counts `root.after(100, check_results)`
registrations; `canvasImg` is the displayed image reference. -/
structure St where
  queue : List QItem
  chat : List Str
  currentCode : Str
  showChat : Bool
  loadingRunning : Bool
  tempDirs : List Nat
  nextDir : Nat
  nextWorker : Nat
  canvasImg : Option Nat
  pendingChecks : Nat
  deriving Repr

/-- Outcome oracle for one `pdflatex` + `convert_from_path` cycle:
the subprocess exit code and captured stdout, whether `convert_from_path`
itself raised (message), the number of pages it produced, and the identity of
the `PhotoImage` built from the first page. -/
structure RenderEnv where
  returncode : Int
  stdout : Str
  convErr : Option Str
  pages : Nat
  imgId : Nat
  deriving Repr

/-- Outcome oracle for one completion-service call: either a response whose
`.choices[0].message.content` reads as `resp` (`none` = malformed response,
making `process_response`'s access raise), or a raised exception message. -/
inductive NetOutcome where
  | ok (resp : Option Str)
  | err (msg : Str)
  deriving Repr

/-- Environment of one generation: the network outcome and the render oracle
used if the extracted code is subsequently compiled. -/
structure NetEnv where
  outcome : NetOutcome
  render : RenderEnv
  deriving Repr

/-! ### Embedded methods -/

/-- `chat_frame.add_message(msg)`: append to the chat transcript. -/
def chatAddF (t : Thread) (msg : Str) (s : St) : St × Trace :=
  ({ s with chat := s.chat ++ [msg] }, [(t, Act.chatAdd msg)])

/-- `loading_indicator.start()` (lines 310-313): a no-op when already running. -/
def loadingStartF (t : Thread) (s : St) : St × Trace :=
  if s.loadingRunning then (s, [])
  else ({ s with loadingRunning := true }, [(t, Act.loadingStart)])

/-- `loading_indicator.stop()` (lines 315-317): unconditional. -/
def loadingStopF (t : Thread) (s : St) : St × Trace :=
  ({ s with loadingRunning := false }, [(t, Act.loadingStop)])

/-- `code_view.set_code(code)`: widget-internal except for the observable
action. -/
def codeSetF (t : Thread) (code : Str) (s : St) : St × Trace :=
  (s, [(t, Act.codeSet code)])

/-- `render_tikz` (lines 617-702), run on thread `t`.  Creates a fresh
working directory, extracts the tikzpicture environment, substitutes it into
the template, writes the document, runs `pdflatex` (outcome `env`); a nonzero
exit raises the classified message, conversion failures raise, and all raises
are caught by the method's `except`, which posts a chat message and returns
`False` WITHOUT deleting the directory; only the success path reaches the
`shutil.rmtree` and returns `True`. -/
def render_tikz (t : Thread) (tikz_code : Str) (env : RenderEnv) (s : St) : Bool × St × Trace :=
  let d := s.nextDir
  let s1 : St := { s with nextDir := d + 1, tempDirs := d :: s.tempDirs }
  let tikz_content := extractTikzContent tikz_code
  let latex_code := pyReplace latexTemplate CONTENT_MARK tikz_content
  let tr0 : Trace := [(t, Act.mkdTemp d), (t, Act.writeTex latex_code), (t, Act.subprocessCall)]
  if env.returncode ≠ 0 then
    let (s2, tr1) := chatAddF t (RENDER_ERR_PREFIX ++ classifyError env.stdout) s1
    (false, s2, tr0 ++ tr1)
  else
    match env.convErr with
    | some e =>
      let (s2, tr1) := chatAddF t (RENDER_ERR_PREFIX ++ e) s1
      (false, s2, tr0 ++ tr1)
    | none =>
      if env.pages = 0 then
        let (s2, tr1) := chatAddF t (RENDER_ERR_PREFIX ++ INDEX_ERR_MSG) s1
        (false, s2, tr0 ++ tr1)
      else
        let s2 : St := { s1 with canvasImg := some env.imgId, tempDirs := s1.tempDirs.erase d }
        (true, s2, tr0 ++ [(t, Act.canvasClear), (t, Act.canvasImage env.imgId), (t, Act.rmTree d)])

/-- `render_tikz_async` (lines 704-706): `threading.Thread(target=render_tikz)`
— the render, including its canvas and chat mutations, runs on the freshly
spawned worker thread. -/
def render_tikz_async (t : Thread) (tikz_code : Str) (env : RenderEnv) (s : St) : St × Trace :=
  let w := s.nextWorker
  let s1 : St := { s with nextWorker := w + 1 }
  let out := render_tikz (Thread.worker w) tikz_code env s1
  (out.2.1, (t, Act.spawnRender tikz_code) :: out.2.2)

/-- `process_response` (lines 785-822), run on thread `t`; `resp = none`
models a malformed response object whose content access raises, taking the
`except` branch.  Otherwise: extract a fenced block; when one was found and is
non-empty after stripping (Python truthiness of `tikz_code`), post the
surrounding prose and render the block SYNCHRONOUSLY on the same thread;
otherwise post the whole content (if non-empty); finally stop the loading
indicator. -/
def process_response (t : Thread) (resp : Option Str) (renv : RenderEnv) (s : St) : St × Trace :=
  match resp with
  | none =>
    let (s1, tr1) := chatAddF t PROCESS_ERR_MSG s
    let (s2, tr2) := loadingStopF t s1
    (s2, tr1 ++ tr2)
  | some content =>
    let tikz_code := fencedExtract content
    let truthy : Bool := match tikz_code with
      | some c => !c.isEmpty
      | none => false
    let text_response := if truthy then fencedProse content else content
    let (s1, tr1) := if text_response.isEmpty then (s, ([] : Trace)) else chatAddF t text_response s
    match tikz_code with
    | some c =>
      if c.isEmpty then
        let (s2, tr2) := loadingStopF t s1
        (s2, tr1 ++ tr2)
      else
        let out := render_tikz t c renv s1
        let s3 := if out.1 then { out.2.1 with currentCode := c } else out.2.1
        let (s4, tr4) := loadingStopF t s3
        (s4, tr1 ++ out.2.2 ++ tr4)
    | none =>
      let (s2, tr2) := loadingStopF t s1
      (s2, tr1 ++ tr2)

/-- `generate_diagram` (lines 557-593), run on thread `t` with the already
non-empty `user_input` passed by `process_input_async`.  Clears the entry
(widget-only), starts the loading indicator, builds the prompt messages
(external data, not observed by the model), performs the BLOCKING network
call on the calling thread, and processes the response synchronously; an
exception from the call is caught and surfaced as a chat message. -/
def generate_diagram (t : Thread) (user_input : Str) (env : NetEnv) (s : St) : St × Trace :=
  if user_input.isEmpty then (s, [])
  else
    let (s1, tr1) := loadingStartF t s
    let trNet : Trace := [(t, Act.networkCall)]
    match env.outcome with
    | NetOutcome.ok resp =>
      let (s2, tr2) := process_response t resp env.render s1
      (s2, tr1 ++ trNet ++ tr2)
    | NetOutcome.err msg =>
      let (s2, tr2) := chatAddF t (GENERATE_ERR_PREFIX ++ msg) s1
      let (s3, tr3) := loadingStopF t s2
      (s3, tr1 ++ trNet ++ tr2 ++ tr3)

/-- `process_input_async` (lines 782-783): despite its name, a direct
synchronous call of `generate_diagram` on the calling thread — no thread is
spawned and nothing is enqueued. -/
def process_input_async (t : Thread) (text : Str) (env : NetEnv) (s : St) : St × Trace :=
  generate_diagram t text env s

/-- `submit_input` (lines 541-555), always run on the interactive thread:
ignore the submission while loading or when the stripped text is empty or the
placeholder; otherwise post the user bubble, start the loading indicator and
hand the text to `process_input_async`. -/
def submit_input (text : Str) (env : NetEnv) (s : St) : St × Trace :=
  if s.loadingRunning then (s, [])
  else
    let stext := pyStrip text
    if stext = [] ∨ stext = PLACEHOLDER then (s, [])
    else
      let (s1, tr1) := chatAddF Thread.interactive stext s
      let (s2, tr2) := loadingStartF Thread.interactive s1
      let (s3, tr3) := process_input_async Thread.interactive stext env s2
      (s3, tr1 ++ tr2 ++ tr3)

/-- `update_ui_with_result` (lines 743-770), run on thread `t` with render
oracle `renv` for the fire-and-forget render it triggers: an "error" item is
surfaced and the indicator stopped (early return, before the `try`); a
"tikz_code" item is stored, displayed, and rendered asynchronously; any other
shape raises inside the `try`, is caught, and surfaced; the `finally` stops
the indicator. -/
def update_ui_with_result (t : Thread) (r : QItem) (renv : RenderEnv) (s : St) : St × Trace :=
  match r with
  | QItem.errorItem msg =>
    let (s1, tr1) := chatAddF t (UPDATE_ERR_PREFIX ++ msg) s
    let (s2, tr2) := loadingStopF t s1
    (s2, tr1 ++ tr2)
  | QItem.successItem code =>
    let s1 := { s with currentCode := code }
    let (s2, tr2) := if s.showChat then (s1, ([] : Trace)) else codeSetF t code s1
    let (s3, tr3) := if s.showChat then chatAddF t code s2 else (s2, ([] : Trace))
    let (s4, tr4) := render_tikz_async t code renv s3
    let (s5, tr5) := loadingStopF t s4
    (s5, tr2 ++ tr3 ++ tr4 ++ tr5)
  | QItem.malformedItem emsg =>
    let (s1, tr1) := chatAddF t (UPDATE_EXC_PREFIX ++ emsg) s
    let (s2, tr2) := loadingStopF t s1
    (s2, tr1 ++ tr2)

/-- The `while True: get_nowait()` drain loop of `check_results` with a
generic handler that may raise (`some err`): on an empty queue `get_nowait`
raises `queue.Empty`, caught by the `except`; a handler exception aborts the
loop, leaving the unread items queued, and propagates. Returns (remaining
items, state, trace, propagated exception). -/
def drainGen (handler : QItem → St → St × Trace × Option Str) :
    List QItem → St → List QItem × St × Trace × Option Str
  | [], s => ([], s, [], none)
  | r :: rest, s =>
    match handler r s with
    | (s1, tr, some e) => (rest, s1, tr, some e)
    | (s1, tr, none) =>
      let out := drainGen handler rest s1
      (out.1, out.2.1, tr ++ out.2.2.1, out.2.2.2)

/-- `check_results` (lines 772-780) generically in the item handler: drain the
queue, then — in the `finally` block, hence unconditionally, whether the queue
was empty, items were handled, or the handler raised —
`root.after(100, check_results)` re-registers the poll before any exception
propagates. -/
def check_results_gen (handler : QItem → St → St × Trace × Option Str) (s : St) :
    St × Trace × Option Str :=
  let out := drainGen handler s.queue { s with queue := [] }
  ({ out.2.1 with queue := out.1, pendingChecks := out.2.1.pendingChecks + 1 },
   out.2.2.1 ++ [(Thread.interactive, Act.scheduleCheck)], out.2.2.2)

/-- `check_results` with its actual handler `update_ui_with_result` (which
catches its own exceptions, hence never raises); the `dispatchResult` action
marks each item obtained from the queue and dispatched.  Runs on the
interactive thread via the Tk timer. -/
def check_results (renv : RenderEnv) (s : St) : St × Trace :=
  let out := check_results_gen
    (fun r s0 =>
      let o := update_ui_with_result Thread.interactive r renv s0
      (o.1, (Thread.interactive, Act.dispatchResult) :: o.2, none)) s
  (out.1, out.2.1)

/-- `generate_diagram_async` (lines 595-615): defined on the class but never
called anywhere in the repository.  The network call runs on an
`asyncio.to_thread` worker; the response is processed on the interactive
thread via `root.after(0, ...)`; on error the scheduled callback targets
`self.handle_error`, which does not exist on the class, so the callback raises
`AttributeError` inside the event loop and is swallowed there (no state
change); the `finally` registers `root.after(100, check_results)`. -/
def generate_diagram_async (env : NetEnv) (s : St) : St × Trace :=
  let w := s.nextWorker
  let s1 : St := { s with nextWorker := w + 1 }
  let trNet : Trace := [(Thread.worker w, Act.networkCall)]
  match env.outcome with
  | NetOutcome.ok resp =>
    let (s2, tr2) := process_response Thread.interactive resp env.render s1
    ({ s2 with pendingChecks := s2.pendingChecks + 1 },
     trNet ++ tr2 ++ [(Thread.interactive, Act.scheduleCheck)])
  | NetOutcome.err _ =>
    ({ s1 with pendingChecks := s1.pendingChecks + 1 },
     trNet ++ [(Thread.interactive, Act.scheduleCheck)])

/-- `toggle_view` (lines 487-505) called with a value from the segmented
button (`true` = "Chat"): flips which panel is shown; entering the code view
with a non-empty `current_code` repaints the code widget.  Grid geometry is
widget-internal. -/
def toggle_view (value : Bool) (s : St) : St × Trace :=
  if value then ({ s with showChat := true }, [])
  else
    let s1 := { s with showChat := false }
    if s.currentCode.isEmpty then (s1, []) else codeSetF Thread.interactive s.currentCode s1

/-- `CodeView.update_preview` (lines 237-243), fired on the interactive thread
by the debounce timer: hands the edited code to `render_tikz_async`. -/
def update_preview (code : Str) (renv : RenderEnv) (s : St) : St × Trace :=
  render_tikz_async Thread.interactive code renv s

/-! ### Whole-program event system -/

/-- The externally triggerable entry points of `TikZGUI` that touch modelled
state.  Handlers touching only widget internals outside the model (focus
in/out, panel resizing, scrolling, syntax highlighting) reference neither
`result_queue` nor any modelled field and are omitted. -/
inductive Ev where
  | submit (text : Str) (env : NetEnv)
  | tick (renv : RenderEnv)
  | preview (code : Str) (renv : RenderEnv)
  | genAsync (env : NetEnv)
  | toggle (value : Bool)

/-- One event-handler invocation. -/
def step : Ev → St → St × Trace
  | Ev.submit text env, s => submit_input text env s
  | Ev.tick renv, s => check_results renv s
  | Ev.preview code renv, s => update_preview code renv s
  | Ev.genAsync env, s => generate_diagram_async env s
  | Ev.toggle v, s => toggle_view v s

/-- Run a sequence of events, concatenating their traces. -/
def run : List Ev → St → St × Trace
  | [], s => (s, [])
  | e :: evs, s =>
    let out1 := step e s
    let out2 := run evs out1.1
    (out2.1, out1.2 ++ out2.2)

/-- The state after `TikZGUI.__init__`: `result_queue` freshly created and
empty (line 358), `current_code = ""` (line 356), chat view shown, the
welcome bubble posted (line 485), and one `check_results` poll already
registered by the startup call (line 367). -/
def initSt : St :=
  { queue := [], chat := [WELCOME], currentCode := [], showChat := true,
    loadingRunning := false, tempDirs := [], nextDir := 0, nextWorker := 0,
    canvasImg := none, pendingChecks := 1 }

/-! ### Trace predicates -/

/-- The action displays an image on the canvas (`canvas.create_image`). -/
def isImgEv (e : Thread × Act) : Bool :=
  match e.2 with
  | Act.canvasImage _ => true
  | _ => false

/-- The action is `loading_indicator.stop()`. -/
def isStopEv (e : Thread × Act) : Bool :=
  match e.2 with
  | Act.loadingStop => true
  | _ => false

/-- The action is a `put` on `result_queue`. -/
def isEnqEv (e : Thread × Act) : Bool :=
  match e.2 with
  | Act.enqueueResult => true
  | _ => false

/-- The action is the dispatcher obtaining a queue item. -/
def isDispEv (e : Thread × Act) : Bool :=
  match e.2 with
  | Act.dispatchResult => true
  | _ => false

/-- The action is a `pdflatex` subprocess invocation. -/
def isSubprocEv (e : Thread × Act) : Bool :=
  match e.2 with
  | Act.subprocessCall => true
  | _ => false

/-- The action mutates presentation state: the chat transcript, the canvas,
the code widget, or the loading indicator. -/
def presEv (e : Thread × Act) : Bool :=
  match e.2 with
  | Act.chatAdd _ => true
  | Act.canvasClear => true
  | Act.canvasImage _ => true
  | Act.codeSet _ => true
  | Act.loadingStart => true
  | Act.loadingStop => true
  | _ => false

/-! ### Concrete inputs used by counterexamples and witnesses -/

/-- Render oracle: compile succeeds, one page, image id 7. -/
def envOk : RenderEnv :=
  { returncode := 0, stdout := [], convErr := none, pages := 1, imgId := 7 }

/-- Render oracle: compile fails with exit 1 and unrecognised diagnostics. -/
def envFail : RenderEnv :=
  { returncode := 1, stdout := ("! Emergency stop.").data, convErr := none, pages := 0, imgId := 0 }

/-- Network oracle: the call succeeds with a plain-prose response. -/
def netOkNoFence : NetEnv :=
  { outcome := NetOutcome.ok (some (("hi").data)), render := envOk }

/-- A user submission. -/
def txtC1 : Str := ("a red circle").data

/-- Input containing the begin token but no end token. -/
def codeC3 : Str := BEGIN_TOK ++ (" x").data

/-- The spec's own fenced-block example. -/
def c4input : Str := ("here:\n```tikz\nBEGIN X END\n```\nthanks").data

/-- An all-whitespace model response. -/
def wsC6 : Str := (" ").data

/-- A response with a well-formed fenced block. -/
def contentC9 : Str := ("```tikz\nX\n```").data

/-- The failure message the spec expects for empty/invalid markup; it does
not occur anywhere in the source. -/
def INVALID_MSG : Str := ("invalid or empty markup generated").data

/-- Render oracle: compile fails and the diagnostics contain the
undefined-colour signature. -/
def envC5 : RenderEnv :=
  { returncode := 1, stdout := ("Undefined color magenta2").data, convErr := none,
    pages := 0, imgId := 0 }

/-- The action is neither a queue `put` nor a dispatcher `get`. -/
def qfreeEv (e : Thread × Act) : Bool := !isEnqEv e && !isDispEv e

/-! ## Basic facts about the Python string primitives -/

/-- `findFromAux` either fails with -1 or returns an index at which the
needle occurs. -/
theorem findFromAux_cases (hay needle : Str) :
    ∀ fuel i, findFromAux hay needle fuel i = -1 ∨
      ∃ k : Nat, findFromAux hay needle fuel i = (k : Int) ∧
        needle.isPrefixOf (hay.drop k) = true := by
  intro fuel
  induction fuel with
  | zero => intro i; left; rfl
  | succ n ih =>
    intro i
    unfold findFromAux
    split
    · split
      · right; exact ⟨i, rfl, by assumption⟩
      · exact ih (i + 1)
    · left; rfl

/-- A failed containment test means `find` returned -1. -/
theorem pyIn_eq_false (hay needle : Str) (h : pyIn hay needle = false) :
    findFrom hay needle 0 = -1 := by
  unfold pyIn at h
  simpa using h

/-- A successful containment test produces a position of the needle. -/
theorem pyIn_true_prefix (hay needle : Str) (h : pyIn hay needle = true) :
    ∃ k, needle.isPrefixOf (hay.drop k) = true := by
  unfold pyIn findFrom at h
  rcases findFromAux_cases hay needle (hay.length + 1 - 0) 0 with h1 | ⟨k, _, hp⟩
  · rw [h1] at h; simp at h
  · exact ⟨k, hp⟩

/-- The head of a matched needle is a character of the haystack. -/
theorem isPrefixOf_head_mem {c : Char} {cs l : Str}
    (h : (c :: cs).isPrefixOf l = true) : c ∈ l := by
  cases l with
  | nil => simp [List.isPrefixOf] at h
  | cons b bs =>
    simp only [List.isPrefixOf, Bool.and_eq_true, beq_iff_eq] at h
    simp [h.1]

/-- An all-whitespace string cannot contain the ```tikz fence marker. -/
theorem ws_no_fence (content : Str) (h : content.all Char.isWhitespace = true) :
    pyIn content FENCE_TIKZ = false := by
  cases hpy : pyIn content FENCE_TIKZ
  · rfl
  · exfalso
    obtain ⟨k, hp⟩ := pyIn_true_prefix content FENCE_TIKZ hpy
    have hf : FENCE_TIKZ = '`' :: ("``tikz").data := by decide
    rw [hf] at hp
    have hmem : '`' ∈ content := List.drop_subset k content (isPrefixOf_head_mem hp)
    have := (List.all_eq_true.mp h) '`' hmem
    simp at this

/-! ## C3: extraction with a missing end token -/

/-- C3 counterexample: for input containing the begin token but no end token,
`render_tikz`'s extraction does NOT return the original content with the end
token appended (in any spelling); it returns a 16-character truncation that
does not even retain the begin token. -/
theorem C3_counterexample :
    extractTikzContent codeC3 ≠ codeC3 ++ END_TOK ∧
    extractTikzContent codeC3 ≠ codeC3 ++ ('\n' :: END_TOK) ∧
    codeC3.isPrefixOf (extractTikzContent codeC3) = false ∧
    extractTikzContent codeC3 = ("\\begin\x7btikzpictu").data := by
  exact ⟨by decide, by decide, by decide, by decide⟩

/-- C3 amended: when the input contains the begin token but not the end
token, `find` returns -1 for the end token, so the extracted fragment is
`tikz_code[start:16]` (`-1 + len("\end\x7btikzpicture\x7d")`) — a slice of at
most 16 characters; no end token is synthesized.  (The fragment is still
never rejected: `render_tikz` proceeds to compile it.) -/
theorem C3_amended_thm (code : Str) (h1 : pyIn code BEGIN_TOK = true)
    (h2 : pyIn code END_TOK = false) :
    extractTikzContent code = pySliceI code (findFrom code BEGIN_TOK 0) 16 ∧
    (extractTikzContent code).length ≤ 16 := by
  have hfind : findFrom code END_TOK 0 = -1 := pyIn_eq_false code END_TOK h2
  have hlen : (END_TOK.length : Int) = 17 := by decide
  have hext : extractTikzContent code = pySliceI code (findFrom code BEGIN_TOK 0) 16 := by
    unfold extractTikzContent
    rw [if_pos h1]
    dsimp only
    rw [hfind, hlen]
    norm_num
  refine ⟨hext, ?_⟩
  rw [hext]
  unfold pySliceI pyIdx
  have h16 : ((16 : Int) < 0) = False := by decide
  simp only [h16, if_false]
  have h16n : ((16 : Int)).toNat = 16 := rfl
  have hbound : (code.take (min (16 : Int).toNat code.length)).length ≤ 16 := by
    rw [List.length_take, h16n]
    omega
  calc ((code.take (min (16 : Int).toNat code.length)).drop
          (pyIdx code.length (findFrom code BEGIN_TOK 0))).length
      ≤ (code.take (min (16 : Int).toNat code.length)).length := by
        rw [List.length_drop]
        omega
    _ ≤ 16 := hbound

/-- C3 witness: the amended statement evaluated at a concrete input. -/
theorem C3_witness :
    extractTikzContent codeC3 = pySliceI codeC3 (findFrom codeC3 BEGIN_TOK 0) 16 ∧
    (extractTikzContent codeC3).length ≤ 16 :=
  C3_amended_thm codeC3 (by decide) (by decide)

/-! ## C4: fenced-block extraction keeps the final marker character -/

/-- C4: at the spec's own example, the extracted "block contents" carry a
leading `z` (the last character of the opening marker, because the source
advances `find("```tikz")` by 6 although the marker has 7 characters), so
extraction does NOT return exactly the block contents trimmed; the
accompanying prose, by contrast, is exactly as claimed. -/
theorem C4_thm :
    fencedExtract c4input = some (("z\nBEGIN X END").data) ∧
    fencedExtract c4input ≠ some (("BEGIN X END").data) ∧
    fencedProse c4input = ("here:\n\nthanks").data := by
  exact ⟨by decide, by decide, by decide⟩

/-! ## C5: classification of nonzero compiler exits -/

/-- C5: whenever the compiler exits nonzero, `render_tikz` returns `False`
and surfaces a chat message classified by ordered substring match on the
captured stdout: "Undefined color" gives the canned undefined-resource
message, otherwise "Illegal parameter" gives the canned invalid-parameter
message, and any other diagnostic text is carried raw as the detail. -/
theorem C5_thm (t : Thread) (tikz_code : Str) (env : RenderEnv) (s : St)
    (hrc : env.returncode ≠ 0) :
    (render_tikz t tikz_code env s).1 = false ∧
    (pyIn env.stdout UNDEF_TOK = true →
      ((render_tikz t tikz_code env s).2.1).chat
        = s.chat ++ [RENDER_ERR_PREFIX ++ UNDEFINED_COLOR_MSG]) ∧
    (pyIn env.stdout UNDEF_TOK = false → pyIn env.stdout ILLEGAL_TOK = true →
      ((render_tikz t tikz_code env s).2.1).chat
        = s.chat ++ [RENDER_ERR_PREFIX ++ ILLEGAL_PARAMETER_MSG]) ∧
    (pyIn env.stdout UNDEF_TOK = false → pyIn env.stdout ILLEGAL_TOK = false →
      ((render_tikz t tikz_code env s).2.1).chat
        = s.chat ++ [RENDER_ERR_PREFIX ++ env.stdout]) := by
  unfold render_tikz
  rw [if_pos hrc]
  refine ⟨rfl, ?_, ?_, ?_⟩
  · intro hu
    simp [chatAddF, classifyError, hu]
  · intro hu hi
    simp [chatAddF, classifyError, hu, hi]
  · intro hu hi
    simp [chatAddF, classifyError, hu, hi]

/-- C5 witness: a nonzero exit whose stdout contains "Undefined color"
produces the canned undefined-resource message. -/
theorem C5_witness :
    ((render_tikz Thread.interactive [] envC5 initSt).2.1).chat
      = initSt.chat ++ [RENDER_ERR_PREFIX ++ UNDEFINED_COLOR_MSG] :=
  (C5_thm Thread.interactive [] envC5 initSt (by decide)).2.1 (by decide)

/-! ## Reduction lemmas for `render_tikz` and `process_response` -/

/-- `render_tikz` never touches `result_queue`. -/
theorem render_tikz_queue (t : Thread) (c : Str) (env : RenderEnv) (s : St) :
    ((render_tikz t c env s).2.1).queue = s.queue := by
  unfold render_tikz
  dsimp only
  split
  · simp [chatAddF]
  · split
    · simp [chatAddF]
    · split
      · simp [chatAddF]
      · simp

/-- On a successful compile-and-convert cycle, `render_tikz` returns `True`,
emits the working-directory, document, subprocess and canvas actions in
order, and leaves `tempDirs` as it found it (the `shutil.rmtree` removes the
directory it created). -/
theorem render_tikz_success (t : Thread) (c : Str) (env : RenderEnv) (s : St)
    (hrc : env.returncode = 0) (hcv : env.convErr = none) (hpg : env.pages ≠ 0) :
    (render_tikz t c env s).1 = true ∧
    (render_tikz t c env s).2.2 =
      [(t, Act.mkdTemp s.nextDir),
       (t, Act.writeTex (pyReplace latexTemplate CONTENT_MARK (extractTikzContent c))),
       (t, Act.subprocessCall), (t, Act.canvasClear),
       (t, Act.canvasImage env.imgId), (t, Act.rmTree s.nextDir)] ∧
    ((render_tikz t c env s).2.1).tempDirs = s.tempDirs := by
  unfold render_tikz
  rw [if_neg (by simp [hrc]), hcv]
  simp [hpg]

/-- On any failing cycle (nonzero exit, conversion exception, or zero pages),
`render_tikz` returns `False` and the freshly created working directory
remains in `tempDirs`: the `except` branch performs no cleanup. -/
theorem render_tikz_fail_dirs (t : Thread) (c : Str) (env : RenderEnv) (s : St)
    (h : env.returncode ≠ 0 ∨ env.convErr ≠ none ∨ env.pages = 0) :
    (render_tikz t c env s).1 = false ∧
    ((render_tikz t c env s).2.1).tempDirs = s.nextDir :: s.tempDirs := by
  unfold render_tikz
  dsimp only
  split
  · simp [chatAddF]
  · rename_i hrc
    rcases h with h | h | h
    · exact absurd h (by simpa using hrc)
    · cases hcv : env.convErr with
      | none => exact absurd hcv h
      | some e => simp [chatAddF]
    · cases hcv : env.convErr with
      | none => simp [h, chatAddF]
      | some e => simp [chatAddF]

/-- `process_response` on a response without a usable fenced block: the whole
content is posted to the chat when non-empty, nothing is rendered, and the
loading indicator is stopped. -/
theorem process_response_no_fence (t : Thread) (content : Str) (renv : RenderEnv) (s : St)
    (h : fencedExtract content = none) :
    process_response t (some content) renv s =
      ((if content.isEmpty then { s with loadingRunning := false }
        else { s with chat := s.chat ++ [content], loadingRunning := false }),
       (if content.isEmpty then ([] : Trace) else [(t, Act.chatAdd content)])
         ++ [(t, Act.loadingStop)]) := by
  simp only [process_response]
  rw [h]
  cases hempty : content.isEmpty <;> simp [chatAddF, loadingStopF, hempty]

/-- `process_response` on a response with a non-empty extracted block: the
prose (if any) is posted first, the block is rendered synchronously on the
calling thread, `current_code` is updated on render success, and the loading
indicator is stopped last. -/
theorem process_response_render (t : Thread) (content c : Str) (renv : RenderEnv) (s : St)
    (hc : fencedExtract content = some c) (hne : c.isEmpty = false) :
    process_response t (some content) renv s =
      ((if (fencedProse content).isEmpty then
          (if (render_tikz t c renv s).1 then
            { (render_tikz t c renv s).2.1 with currentCode := c, loadingRunning := false }
           else { (render_tikz t c renv s).2.1 with loadingRunning := false })
        else
          (if (render_tikz t c renv { s with chat := s.chat ++ [fencedProse content] }).1 then
            { (render_tikz t c renv { s with chat := s.chat ++ [fencedProse content] }).2.1 with
                currentCode := c, loadingRunning := false }
           else { (render_tikz t c renv { s with chat := s.chat ++ [fencedProse content] }).2.1 with
                loadingRunning := false })),
       (if (fencedProse content).isEmpty then ([] : Trace) else [(t, Act.chatAdd (fencedProse content))])
         ++ (if (fencedProse content).isEmpty then (render_tikz t c renv s).2.2
             else (render_tikz t c renv { s with chat := s.chat ++ [fencedProse content] }).2.2)
         ++ [(t, Act.loadingStop)]) := by
  cases hp : (fencedProse content).isEmpty <;>
    simp_all [process_response, chatAddF, loadingStopF] <;>
    split <;> rfl

/-! ## C2: working-directory cleanup -/

/-- C2 counterexample: a forced compiler failure leaves the per-invocation
working directory behind — the cleanup does not happen on the failure path. -/
theorem C2_counterexample :
    ((render_tikz Thread.interactive [] envFail initSt).2.1).tempDirs ≠ initSt.tempDirs ∧
    ((render_tikz Thread.interactive [] envFail initSt).2.1).tempDirs = [0] := by
  exact ⟨by decide, by decide⟩

/-- C2 amended: the working directory created by `render_tikz` is deleted
before returning on the SUCCESS path only; on every failing exit path
(nonzero compiler exit, conversion exception, or an empty page list) the
`except` branch returns without deleting it, so the directory leaks. -/
theorem C2_amended_thm (t : Thread) (c : Str) (env : RenderEnv) (s : St) :
    ((env.returncode = 0 ∧ env.convErr = none ∧ env.pages ≠ 0) →
      ((render_tikz t c env s).2.1).tempDirs = s.tempDirs) ∧
    ((env.returncode ≠ 0 ∨ env.convErr ≠ none ∨ env.pages = 0) →
      ((render_tikz t c env s).2.1).tempDirs = s.nextDir :: s.tempDirs) := by
  constructor
  · rintro ⟨h1, h2, h3⟩
    exact (render_tikz_success t c env s h1 h2 h3).2.2
  · intro h
    exact (render_tikz_fail_dirs t c env s h).2

/-- C2 witness: the amended statement at a succeeding and at a failing
render. -/
theorem C2_witness :
    ((render_tikz Thread.interactive [] envOk initSt).2.1).tempDirs = initSt.tempDirs ∧
    ((render_tikz Thread.interactive [] envFail initSt).2.1).tempDirs
      = initSt.nextDir :: initSt.tempDirs :=
  ⟨(C2_amended_thm Thread.interactive [] envOk initSt).1 ⟨by decide, by decide, by decide⟩,
   (C2_amended_thm Thread.interactive [] envFail initSt).2 (Or.inl (by decide))⟩

/-! ## C6: all-whitespace responses -/

/-- C6 counterexample: for the all-whitespace response " ", no
"invalid or empty markup generated" failure message is ever produced —
instead the raw whitespace text itself is posted to the chat — and no render
occurs. -/
theorem C6_counterexample :
    (Thread.interactive, Act.chatAdd INVALID_MSG)
        ∉ (process_response Thread.interactive (some wsC6) envOk initSt).2 ∧
    (process_response Thread.interactive (some wsC6) envOk initSt).1.chat = [WELCOME, wsC6] ∧
    (process_response Thread.interactive (some wsC6) envOk initSt).2.countP isImgEv = 0 ∧
    (process_response Thread.interactive (some wsC6) envOk initSt).2.countP isSubprocEv = 0 := by
  exact ⟨by decide, by decide, by decide, by decide⟩

/-- C6 amended: on an all-whitespace response no fenced block is found
(`tikz_code` stays `None`); there is no `EmptyPayload` error and no
`Failure` message — the raw content itself is posted to the chat whenever it
is non-empty (Python truthiness of a whitespace string), nothing is compiled
or displayed, and the loading indicator is stopped. -/
theorem C6_amended_thm (t : Thread) (content : Str) (renv : RenderEnv) (s : St)
    (hws : content.all Char.isWhitespace = true) :
    fencedExtract content = none ∧
    (process_response t (some content) renv s).1.chat
      = s.chat ++ (if content.isEmpty then [] else [content]) ∧
    (process_response t (some content) renv s).1.loadingRunning = false ∧
    (process_response t (some content) renv s).2.countP isImgEv = 0 ∧
    (process_response t (some content) renv s).2.countP isSubprocEv = 0 := by
  have hf : fencedExtract content = none := by
    unfold fencedExtract
    simp [ws_no_fence content hws]
  rw [process_response_no_fence t content renv s hf]
  cases hempty : content.isEmpty <;>
    simp [hf, hempty, isImgEv, isSubprocEv, List.countP_cons, List.countP_nil]

/-- C6 witness: the amended statement at the concrete response " ". -/
theorem C6_witness :
    fencedExtract wsC6 = none ∧
    (process_response Thread.interactive (some wsC6) envOk initSt).1.chat
      = initSt.chat ++ (if wsC6.isEmpty then [] else [wsC6]) ∧
    (process_response Thread.interactive (some wsC6) envOk initSt).1.loadingRunning = false ∧
    (process_response Thread.interactive (some wsC6) envOk initSt).2.countP isImgEv = 0 ∧
    (process_response Thread.interactive (some wsC6) envOk initSt).2.countP isSubprocEv = 0 :=
  C6_amended_thm Thread.interactive wsC6 envOk initSt (by decide)

/-! ## C9: image delivery and loading-indicator ordering -/

/-- C9: whenever a processed response yields a rendered image (a non-empty
fenced block was extracted and the compile-and-convert cycle succeeds), the
canvas image is drawn exactly once, it carries the bitmap produced from the
first page, and the loading indicator is stopped only AFTER the image is
drawn (no stop action precedes the canvas update in the trace), exactly
once.  Generation results are processed by `process_response`; the
queue-dispatcher path (`update_ui_with_result`) is unreachable because the
queue is never written (see the C10 development). -/
theorem C9_thm (t : Thread) (content c : Str) (renv : RenderEnv) (s : St)
    (hc : fencedExtract content = some c) (hne : c.isEmpty = false)
    (hrc : renv.returncode = 0) (hcv : renv.convErr = none) (hpg : renv.pages ≠ 0) :
    (process_response t (some content) renv s).2.countP isImgEv = 1 ∧
    (t, Act.canvasImage renv.imgId) ∈ (process_response t (some content) renv s).2 ∧
    ((process_response t (some content) renv s).2.takeWhile (fun e => !isImgEv e)).countP isStopEv = 0 ∧
    (process_response t (some content) renv s).2.countP isStopEv = 1 := by
  rw [process_response_render t content c renv s hc hne]
  cases hp : (fencedProse content).isEmpty <;>
    simp only [hp, Bool.false_eq_true, if_true, if_false, ite_true, ite_false] <;>
    rw [(render_tikz_success t c renv _ hrc hcv hpg).2.1] <;>
    simp [isImgEv, isStopEv, List.takeWhile, List.countP_cons, List.countP_nil]

/-- C9 witness: the statement at a concrete response carrying a well-formed
fenced block, with a succeeding render oracle. -/
theorem C9_witness :
    (process_response Thread.interactive (some contentC9) envOk initSt).2.countP isImgEv = 1 ∧
    (Thread.interactive, Act.canvasImage envOk.imgId)
        ∈ (process_response Thread.interactive (some contentC9) envOk initSt).2 ∧
    ((process_response Thread.interactive (some contentC9) envOk initSt).2.takeWhile
        (fun e => !isImgEv e)).countP isStopEv = 0 ∧
    (process_response Thread.interactive (some contentC9) envOk initSt).2.countP isStopEv = 1 :=
  C9_thm Thread.interactive contentC9 (("z\nX").data) envOk initSt
    (by decide) (by decide) (by decide) (by decide) (by decide)

/-! ## Thread-confinement and queue lemmas -/

/-- `process_response` reduction for a found-but-empty block: Python
truthiness makes an empty extracted string behave like no block at all. -/
theorem process_response_some_empty (t : Thread) (content c : Str) (renv : RenderEnv) (s : St)
    (hc : fencedExtract content = some c) (hemp : c.isEmpty = true) :
    process_response t (some content) renv s =
      ((if content.isEmpty then { s with loadingRunning := false }
        else { s with chat := s.chat ++ [content], loadingRunning := false }),
       (if content.isEmpty then ([] : Trace) else [(t, Act.chatAdd content)])
         ++ [(t, Act.loadingStop)]) := by
  simp only [process_response]
  rw [hc]
  cases hempty : content.isEmpty <;> simp [hemp, hempty, chatAddF, loadingStopF]

/-- Every action of `render_tikz` happens on the thread that runs it, and
none touches `result_queue`. -/
theorem render_tikz_thread_qfree (t : Thread) (c : Str) (env : RenderEnv) (s : St) :
    ∀ e ∈ (render_tikz t c env s).2.2, e.1 = t ∧ qfreeEv e = true := by
  intro e he
  unfold render_tikz at he
  dsimp only at he
  split at he
  · simp [chatAddF] at he
    rcases he with h | h | h | h <;> simp [h, qfreeEv, isEnqEv, isDispEv]
  · split at he
    · simp [chatAddF] at he
      rcases he with h | h | h | h <;> simp [h, qfreeEv, isEnqEv, isDispEv]
    · split at he
      · simp [chatAddF] at he
        rcases he with h | h | h | h <;> simp [h, qfreeEv, isEnqEv, isDispEv]
      · simp at he
        rcases he with h | h | h | h | h | h <;> simp [h, qfreeEv, isEnqEv, isDispEv]

/-- Every execution of `render_tikz` mutates presentation state: the chat on
every failure path, the canvas on the success path. -/
theorem render_tikz_pres (t : Thread) (c : Str) (env : RenderEnv) (s : St) :
    ∃ e ∈ (render_tikz t c env s).2.2, presEv e = true := by
  unfold render_tikz
  dsimp only
  split
  · exact ⟨(t, Act.chatAdd (RENDER_ERR_PREFIX ++ classifyError env.stdout)),
      by simp [chatAddF], rfl⟩
  · split
    · rename_i e' _
      exact ⟨(t, Act.chatAdd (RENDER_ERR_PREFIX ++ e')), by simp [chatAddF], rfl⟩
    · split
      · exact ⟨(t, Act.chatAdd (RENDER_ERR_PREFIX ++ INDEX_ERR_MSG)), by simp [chatAddF], rfl⟩
      · exact ⟨(t, Act.canvasClear), by simp, rfl⟩

/-- Every action of `process_response` happens on the thread that runs it
(the render inside is synchronous), and none touches `result_queue`. -/
theorem process_response_thread_qfree (t : Thread) (resp : Option Str) (renv : RenderEnv) (s : St) :
    ∀ e ∈ (process_response t resp renv s).2, e.1 = t ∧ qfreeEv e = true := by
  intro e he
  cases resp with
  | none =>
    simp [process_response, chatAddF, loadingStopF] at he
    rcases he with h | h <;> simp [h, qfreeEv, isEnqEv, isDispEv]
  | some content =>
    rcases hc : fencedExtract content with _ | c
    · rw [process_response_no_fence t content renv s hc] at he
      rcases List.mem_append.mp he with h1 | h1
      · by_cases hemp : content.isEmpty = true
        · simp [hemp] at h1
        · rw [if_neg hemp] at h1
          simp at h1
          simp [h1, qfreeEv, isEnqEv, isDispEv]
      · simp at h1
        simp [h1, qfreeEv, isEnqEv, isDispEv]
    · by_cases hemp : c.isEmpty = true
      · rw [process_response_some_empty t content c renv s hc hemp] at he
        rcases List.mem_append.mp he with h1 | h1
        · by_cases hcc : content.isEmpty = true
          · simp [hcc] at h1
          · rw [if_neg hcc] at h1
            simp at h1
            simp [h1, qfreeEv, isEnqEv, isDispEv]
        · simp at h1
          simp [h1, qfreeEv, isEnqEv, isDispEv]
      · rw [process_response_render t content c renv s hc (by simpa using hemp)] at he
        rcases List.mem_append.mp he with h1 | h1
        · rcases List.mem_append.mp h1 with h2 | h2
          · by_cases hp : (fencedProse content).isEmpty = true
            · simp [hp] at h2
            · rw [if_neg hp] at h2
              simp at h2
              simp [h2, qfreeEv, isEnqEv, isDispEv]
          · by_cases hp : (fencedProse content).isEmpty = true
            · rw [if_pos hp] at h2
              exact render_tikz_thread_qfree t c renv _ e h2
            · rw [if_neg hp] at h2
              exact render_tikz_thread_qfree t c renv _ e h2
        · simp at h1
          simp [h1, qfreeEv, isEnqEv, isDispEv]

/-- The only action `loading_indicator.start()` can emit. -/
theorem mem_loadingStartF (t : Thread) (s : St) (e : Thread × Act)
    (h : e ∈ (loadingStartF t s).2) : e = (t, Act.loadingStart) := by
  unfold loadingStartF at h
  split at h <;> simp at h
  exact h

/-- Every action of `generate_diagram` — including the network call and the
synchronous response processing — happens on the thread that runs it, and
none touches `result_queue`. -/
theorem generate_diagram_thread_qfree (t : Thread) (ui : Str) (env : NetEnv) (s : St) :
    ∀ e ∈ (generate_diagram t ui env s).2, e.1 = t ∧ qfreeEv e = true := by
  intro e he
  unfold generate_diagram at he
  dsimp only at he
  split at he
  · simp at he
  · split at he
    · rename_i resp _
      rcases List.mem_append.mp he with h1 | h1
      · rcases List.mem_append.mp h1 with h2 | h2
        · rw [mem_loadingStartF t s e h2]
          simp [qfreeEv, isEnqEv, isDispEv]
        · simp at h2
          simp [h2, qfreeEv, isEnqEv, isDispEv]
      · exact process_response_thread_qfree t resp env.render _ e h1
    · rcases List.mem_append.mp he with h1 | h1
      · rcases List.mem_append.mp h1 with h2 | h2
        · rcases List.mem_append.mp h2 with h3 | h3
          · rw [mem_loadingStartF t s e h3]
            simp [qfreeEv, isEnqEv, isDispEv]
          · simp at h3
            simp [h3, qfreeEv, isEnqEv, isDispEv]
        · simp [chatAddF] at h2
          simp [h2, qfreeEv, isEnqEv, isDispEv]
      · simp [loadingStopF] at h1
        simp [h1, qfreeEv, isEnqEv, isDispEv]

/-- `generate_diagram` on a non-empty input always performs the network call
on its own thread. -/
theorem generate_diagram_net (t : Thread) (ui : Str) (env : NetEnv) (s : St)
    (h : ui.isEmpty = false) :
    (t, Act.networkCall) ∈ (generate_diagram t ui env s).2 := by
  unfold generate_diagram
  rw [if_neg (by simp [h])]
  dsimp only
  cases env.outcome <;> simp

/-- Every action of `submit_input` happens on the interactive thread, and
none touches `result_queue`. -/
theorem submit_input_thread_qfree (text : Str) (env : NetEnv) (s : St) :
    ∀ e ∈ (submit_input text env s).2, e.1 = Thread.interactive ∧ qfreeEv e = true := by
  intro e he
  unfold submit_input at he
  dsimp only at he
  split at he
  · simp at he
  · split at he
    · simp at he
    · rcases List.mem_append.mp he with h1 | h1
      · rcases List.mem_append.mp h1 with h2 | h2
        · simp [chatAddF] at h2
          simp [h2, qfreeEv, isEnqEv, isDispEv]
        · rw [mem_loadingStartF Thread.interactive _ e h2]
          simp [qfreeEv, isEnqEv, isDispEv]
      · exact generate_diagram_thread_qfree Thread.interactive _ env _ e h1

/-- A non-empty character list is not `isEmpty`. -/
theorem pyStrip_ne_nil_isEmpty {l : Str} (h : ¬l = []) : l.isEmpty = false := by
  cases l
  · exact absurd rfl h
  · rfl

/-- A guard-passing submission reaches the network call. -/
theorem submit_input_net (text : Str) (env : NetEnv) (s : St)
    (h1 : s.loadingRunning = false)
    (h2 : ¬(pyStrip text = [] ∨ pyStrip text = PLACEHOLDER)) :
    (Thread.interactive, Act.networkCall) ∈ (submit_input text env s).2 := by
  unfold submit_input
  rw [if_neg (by simp [h1]), if_neg h2]
  refine List.mem_append.mpr (Or.inr ?_)
  exact generate_diagram_net Thread.interactive _ env _
    (pyStrip_ne_nil_isEmpty (fun hh => h2 (Or.inl hh)))

/-- `process_response` never touches `result_queue`. -/
theorem process_response_queue (t : Thread) (resp : Option Str) (renv : RenderEnv) (s : St) :
    (process_response t resp renv s).1.queue = s.queue := by
  cases resp with
  | none => simp [process_response, chatAddF, loadingStopF]
  | some content =>
    rcases hc : fencedExtract content with _ | c
    · rw [process_response_no_fence t content renv s hc]
      cases hcc : content.isEmpty <;> simp
    · by_cases hemp : c.isEmpty = true
      · rw [process_response_some_empty t content c renv s hc hemp]
        cases hcc : content.isEmpty <;> simp
      · rw [process_response_render t content c renv s hc (by simpa using hemp)]
        by_cases hp : (fencedProse content).isEmpty = true <;>
          simp [hp, render_tikz_queue] <;> split <;> rfl

/-- `generate_diagram` never touches `result_queue`. -/
theorem generate_diagram_queue (t : Thread) (ui : Str) (env : NetEnv) (s : St) :
    (generate_diagram t ui env s).1.queue = s.queue := by
  unfold generate_diagram
  dsimp only
  split
  · rfl
  · have hload : (loadingStartF t s).1.queue = s.queue := by
      unfold loadingStartF
      split <;> simp
    split
    · rw [process_response_queue]
      exact hload
    · simp [chatAddF, loadingStopF, hload]

/-- `submit_input` never touches `result_queue`. -/
theorem submit_input_queue (text : Str) (env : NetEnv) (s : St) :
    (submit_input text env s).1.queue = s.queue := by
  unfold submit_input
  dsimp only
  split
  · rfl
  · split
    · rfl
    · unfold process_input_async
      rw [generate_diagram_queue]
      have : (loadingStartF Thread.interactive (chatAddF Thread.interactive (pyStrip text) s).1).1.queue
          = (chatAddF Thread.interactive (pyStrip text) s).1.queue := by
        unfold loadingStartF
        split <;> simp
      rw [this]
      simp [chatAddF]

/-! ## C1: where the generation network call runs -/

/-- C1 counterexample: on a concrete user submission the network call is
performed ON the interactive thread and no `GenerationResult` is ever pushed
onto `result_queue` (the queue stays empty). -/
theorem C1_counterexample :
    (Thread.interactive, Act.networkCall) ∈ (submit_input txtC1 netOkNoFence initSt).2 ∧
    (submit_input txtC1 netOkNoFence initSt).2.countP isEnqEv = 0 ∧
    (submit_input txtC1 netOkNoFence initSt).1.queue = [] := by
  exact ⟨by decide, by decide, by decide⟩

/-- C1 amended: `process_input_async` invokes `generate_diagram`
synchronously on the calling (interactive) thread, so EVERY action of a
guard-passing submission — the blocking network call and any synchronous
compile that follows — runs on the interactive thread; nothing is enqueued
on `result_queue` and the queue is unchanged. -/
theorem C1_amended_thm (text : Str) (env : NetEnv) (s : St)
    (h1 : s.loadingRunning = false)
    (h2 : ¬(pyStrip text = [] ∨ pyStrip text = PLACEHOLDER)) :
    (∀ e ∈ (submit_input text env s).2, e.1 = Thread.interactive) ∧
    (Thread.interactive, Act.networkCall) ∈ (submit_input text env s).2 ∧
    (∀ e ∈ (submit_input text env s).2, isEnqEv e = false) ∧
    (submit_input text env s).1.queue = s.queue := by
  refine ⟨?_, submit_input_net text env s h1 h2, ?_, submit_input_queue text env s⟩
  · intro e he
    exact (submit_input_thread_qfree text env s e he).1
  · intro e he
    have h := (submit_input_thread_qfree text env s e he).2
    simp [qfreeEv] at h
    exact h.1

/-- C1 witness: the amended statement at a concrete submission. -/
theorem C1_witness :
    (Thread.interactive, Act.networkCall) ∈ (submit_input txtC1 netOkNoFence initSt).2 ∧
    (submit_input txtC1 netOkNoFence initSt).1.queue = initSt.queue :=
  ⟨(C1_amended_thm txtC1 netOkNoFence initSt (by decide) (by decide)).2.1,
   (C1_amended_thm txtC1 netOkNoFence initSt (by decide) (by decide)).2.2.2⟩

/-! ## C7: which thread mutates presentation state -/

/-- C7 counterexample: the worker thread spawned by `render_tikz_async`
performs the canvas-image mutation itself — a presentation mutation on a
non-interactive thread. -/
theorem C7_counterexample :
    (Thread.worker 0, Act.canvasImage 7) ∈ (render_tikz_async Thread.interactive [] envOk initSt).2 ∧
    presEv (Thread.worker 0, Act.canvasImage 7) = true := by
  exact ⟨by decide, by decide⟩

/-- C7 amended: `render_tikz` mutates the canvas and the chat on whichever
thread runs it, so every presentation mutation of an async render happens on
the spawned worker thread — and every async render performs at least one
(chat message on failure, canvas update on success). -/
theorem C7_amended_thm (code : Str) (renv : RenderEnv) (s : St) :
    (∀ e ∈ (render_tikz_async Thread.interactive code renv s).2,
        presEv e = true → e.1 = Thread.worker s.nextWorker) ∧
    (∃ e ∈ (render_tikz_async Thread.interactive code renv s).2, presEv e = true) := by
  constructor
  · intro e he hp
    unfold render_tikz_async at he
    dsimp only at he
    rcases List.mem_cons.mp he with h | h
    · subst h
      simp [presEv] at hp
    · exact (render_tikz_thread_qfree (Thread.worker s.nextWorker) code renv _ e h).1
  · obtain ⟨e, hm, hp⟩ := render_tikz_pres (Thread.worker s.nextWorker) code renv
      { s with nextWorker := s.nextWorker + 1 }
    refine ⟨e, ?_, hp⟩
    unfold render_tikz_async
    dsimp only
    exact List.mem_cons_of_mem _ hm

/-- C7 witness: the amended statement applied at the concrete presentation
action of a successful async render. -/
theorem C7_witness :
    (Thread.worker 0, Act.canvasImage 7).1 = Thread.worker initSt.nextWorker :=
  (C7_amended_thm [] envOk initSt).1 (Thread.worker 0, Act.canvasImage 7) (by decide) (by decide)

/-! ## Dispatcher lemmas -/

/-- `render_tikz` does not touch the poll-scheduling state. -/
theorem render_tikz_pending (t : Thread) (c : Str) (env : RenderEnv) (s : St) :
    ((render_tikz t c env s).2.1).pendingChecks = s.pendingChecks := by
  unfold render_tikz
  dsimp only
  split
  · simp [chatAddF]
  · split
    · simp [chatAddF]
    · split
      · simp [chatAddF]
      · simp

/-- `render_tikz_async` does not touch the poll-scheduling state. -/
theorem render_tikz_async_pending (t : Thread) (c : Str) (env : RenderEnv) (s : St) :
    ((render_tikz_async t c env s).1).pendingChecks = s.pendingChecks := by
  unfold render_tikz_async
  dsimp only
  rw [render_tikz_pending]

/-- `render_tikz_async` never touches `result_queue`. -/
theorem render_tikz_async_queue (t : Thread) (c : Str) (env : RenderEnv) (s : St) :
    ((render_tikz_async t c env s).1).queue = s.queue := by
  unfold render_tikz_async
  dsimp only
  rw [render_tikz_queue]

/-- No action of `render_tikz_async` is a queue `put` or a dispatcher `get`. -/
theorem render_tikz_async_qfree (t : Thread) (c : Str) (env : RenderEnv) (s : St) :
    ∀ e ∈ (render_tikz_async t c env s).2, qfreeEv e = true := by
  intro e he
  unfold render_tikz_async at he
  dsimp only at he
  rcases List.mem_cons.mp he with h | h
  · simp [h, qfreeEv, isEnqEv, isDispEv]
  · exact (render_tikz_thread_qfree _ c env _ e h).2

/-- `update_ui_with_result` does not touch the poll-scheduling state. -/
theorem update_ui_pending (t : Thread) (r : QItem) (renv : RenderEnv) (s : St) :
    ((update_ui_with_result t r renv s).1).pendingChecks = s.pendingChecks := by
  cases r with
  | errorItem msg => simp [update_ui_with_result, chatAddF, loadingStopF]
  | successItem code =>
    unfold update_ui_with_result
    dsimp only
    cases hsc : s.showChat <;>
      simp [hsc, chatAddF, codeSetF, loadingStopF, render_tikz_async_pending]
  | malformedItem emsg => simp [update_ui_with_result, chatAddF, loadingStopF]

/-- `update_ui_with_result` never touches `result_queue`. -/
theorem update_ui_queue (t : Thread) (r : QItem) (renv : RenderEnv) (s : St) :
    ((update_ui_with_result t r renv s).1).queue = s.queue := by
  cases r with
  | errorItem msg => simp [update_ui_with_result, chatAddF, loadingStopF]
  | successItem code =>
    unfold update_ui_with_result
    dsimp only
    cases hsc : s.showChat <;>
      simp [hsc, chatAddF, codeSetF, loadingStopF, render_tikz_async_queue]
  | malformedItem emsg => simp [update_ui_with_result, chatAddF, loadingStopF]

/-- The drain loop preserves any state component its handler preserves
(stated for the scheduling counter). -/
theorem drain_pending_generic (handler : QItem → St → St × Trace × Option Str)
    (hh : ∀ r s0, (handler r s0).1.pendingChecks = s0.pendingChecks) :
    ∀ (q : List QItem) (s : St), (drainGen handler q s).2.1.pendingChecks = s.pendingChecks := by
  intro q
  induction q with
  | nil => intro s; rfl
  | cons r rest ih =>
    intro s
    unfold drainGen
    rcases hr : handler r s with ⟨s1, tr, e⟩
    have hps : s1.pendingChecks = s.pendingChecks := by
      have := hh r s
      rw [hr] at this
      exact this
    cases e with
    | some err => simpa [hr] using hps
    | none =>
      rw [ih s1, hps]

/-- Every `check_results` poll registers exactly one new poll. -/
theorem check_results_pending (renv : RenderEnv) (s : St) :
    (check_results renv s).1.pendingChecks = s.pendingChecks + 1 := by
  unfold check_results check_results_gen
  dsimp only
  rw [drain_pending_generic _ (fun r s0 => update_ui_pending Thread.interactive r renv s0)]

/-! ## C8: the dispatcher always reschedules itself -/

/-- C8: the `finally` block of `check_results` registers the next poll
unconditionally: for EVERY item handler — including one that raises partway
through the drain — and every queue state, the poll's trace contains the
re-registration action; with the actual handler (`update_ui_with_result`)
each poll moreover increments the pending-poll count by exactly one,
covering the empty-queue, item-handled, and internal-exception cases
uniformly. -/
theorem C8_thm (handler : QItem → St → St × Trace × Option Str) (renv : RenderEnv) (s : St) :
    (Thread.interactive, Act.scheduleCheck) ∈ (check_results_gen handler s).2.1 ∧
    (Thread.interactive, Act.scheduleCheck) ∈ (check_results renv s).2 ∧
    (check_results renv s).1.pendingChecks = s.pendingChecks + 1 := by
  refine ⟨?_, ?_, check_results_pending renv s⟩
  · unfold check_results_gen
    dsimp only
    exact List.mem_append.mpr (Or.inr (by simp))
  · unfold check_results check_results_gen
    dsimp only
    exact List.mem_append.mpr (Or.inr (by simp))

/-! ## C10: the Job Queue is never written -/

/-- `generate_diagram_async` never touches `result_queue`. -/
theorem generate_diagram_async_queue (env : NetEnv) (s : St) :
    (generate_diagram_async env s).1.queue = s.queue := by
  unfold generate_diagram_async
  dsimp only
  split
  · simp [process_response_queue]
  · simp

/-- No action of `generate_diagram_async` is a queue `put` or dispatcher
`get`. -/
theorem generate_diagram_async_qfree (env : NetEnv) (s : St) :
    ∀ e ∈ (generate_diagram_async env s).2, qfreeEv e = true := by
  intro e he
  unfold generate_diagram_async at he
  dsimp only at he
  split at he
  · rcases List.mem_append.mp he with h1 | h1
    · rcases List.mem_append.mp h1 with h2 | h2
      · simp at h2
        simp [h2, qfreeEv, isEnqEv, isDispEv]
      · exact (process_response_thread_qfree Thread.interactive _ env.render _ e h2).2
    · simp at h1
      simp [h1, qfreeEv, isEnqEv, isDispEv]
  · rcases List.mem_append.mp he with h1 | h1
    · simp at h1
      simp [h1, qfreeEv, isEnqEv, isDispEv]
    · simp at h1
      simp [h1, qfreeEv, isEnqEv, isDispEv]

/-- `toggle_view` never touches `result_queue`. -/
theorem toggle_view_queue (v : Bool) (s : St) :
    (toggle_view v s).1.queue = s.queue := by
  unfold toggle_view
  dsimp only
  split
  · rfl
  · split
    · rfl
    · rfl

/-- No action of `toggle_view` is a queue `put` or dispatcher `get`. -/
theorem toggle_view_qfree (v : Bool) (s : St) :
    ∀ e ∈ (toggle_view v s).2, qfreeEv e = true := by
  intro e he
  unfold toggle_view at he
  dsimp only at he
  split at he
  · simp at he
  · split at he
    · simp at he
    · simp [codeSetF] at he
      simp [he, qfreeEv, isEnqEv, isDispEv]

/-- A poll of an empty queue handles nothing: it only re-registers itself. -/
theorem check_results_empty (renv : RenderEnv) (s : St) (hq : s.queue = []) :
    check_results renv s =
      ({ s with queue := [], pendingChecks := s.pendingChecks + 1 },
       [(Thread.interactive, Act.scheduleCheck)]) := by
  unfold check_results check_results_gen
  rw [hq]
  rfl

/-- Every event handler preserves queue emptiness and emits no queue action. -/
theorem step_inv (e : Ev) (s : St) (hq : s.queue = []) :
    (step e s).1.queue = [] ∧ ∀ x ∈ (step e s).2, qfreeEv x = true := by
  cases e with
  | submit text env =>
    refine ⟨?_, ?_⟩
    · show (submit_input text env s).1.queue = []
      rw [submit_input_queue]
      exact hq
    · intro x hx
      exact (submit_input_thread_qfree text env s x hx).2
  | tick renv =>
    have hst : step (Ev.tick renv) s = check_results renv s := rfl
    rw [hst, check_results_empty renv s hq]
    refine ⟨rfl, ?_⟩
    intro x hx
    rw [List.mem_singleton] at hx
    simp [hx, qfreeEv, isEnqEv, isDispEv]
  | preview code renv =>
    refine ⟨?_, ?_⟩
    · show (update_preview code renv s).1.queue = []
      unfold update_preview
      rw [render_tikz_async_queue]
      exact hq
    · intro x hx
      exact render_tikz_async_qfree Thread.interactive code renv s x hx
  | genAsync env =>
    refine ⟨?_, ?_⟩
    · show (generate_diagram_async env s).1.queue = []
      rw [generate_diagram_async_queue]
      exact hq
    · intro x hx
      exact generate_diagram_async_qfree env s x hx
  | toggle v =>
    refine ⟨?_, ?_⟩
    · show (toggle_view v s).1.queue = []
      rw [toggle_view_queue]
      exact hq
    · intro x hx
      exact toggle_view_qfree v s x hx

/-- Any event sequence from a queue-empty state keeps the queue empty and
emits no queue action in its trace. -/
theorem run_inv : ∀ (evs : List Ev) (s : St), s.queue = [] →
    (run evs s).1.queue = [] ∧ ∀ x ∈ (run evs s).2, qfreeEv x = true := by
  intro evs
  induction evs with
  | nil =>
    intro s hq
    exact ⟨hq, by intro x hx; simp [run] at hx⟩
  | cons e evs ih =>
    intro s hq
    obtain ⟨hq1, htr1⟩ := step_inv e s hq
    obtain ⟨hq2, htr2⟩ := ih (step e s).1 hq1
    refine ⟨hq2, ?_⟩
    intro x hx
    rw [run] at hx
    dsimp only at hx
    rcases List.mem_append.mp hx with h | h
    · exact htr1 x h
    · exact htr2 x h

/-- C10: starting from `__init__`'s state, NO sequence of program events ever
enqueues anything on `result_queue` — it stays empty for the whole process
lifetime — and consequently the dispatcher's drain loop never obtains an
item, i.e. `update_ui_with_result` is never invoked through the dispatcher. -/
theorem C10_thm (evs : List Ev) :
    (run evs initSt).1.queue = [] ∧
    (∀ x ∈ (run evs initSt).2, isEnqEv x = false) ∧
    (∀ x ∈ (run evs initSt).2, isDispEv x = false) := by
  obtain ⟨hq, htr⟩ := run_inv evs initSt rfl
  refine ⟨hq, fun x hx => ?_, fun x hx => ?_⟩
  · have h := htr x hx
    simp [qfreeEv] at h
    exact h.1
  · have h := htr x hx
    simp [qfreeEv] at h
    exact h.2

/-- C10 witness: a concrete run (one submission, one dispatcher poll) leaves
the queue empty; the poll's re-registration action is not a dispatch. -/
theorem C10_witness :
    (run [Ev.submit txtC1 netOkNoFence, Ev.tick envOk] initSt).1.queue = [] ∧
    isDispEv (Thread.interactive, Act.scheduleCheck) = false :=
  ⟨(C10_thm [Ev.submit txtC1 netOkNoFence, Ev.tick envOk]).1,
   (C10_thm [Ev.submit txtC1 netOkNoFence, Ev.tick envOk]).2.2
     (Thread.interactive, Act.scheduleCheck) (by decide)⟩
